import Mathlib

/-!
Shallow embedding of the message classes in
`packages/core/src/modules/credentials/protocol/v1/messages/V1ProposeCredentialMessage.ts`
(`V1ProposeCredentialMessage` and `BatchPickupMessage`), together with a model of
the external validation pass (class-validator decorators) and of the wire
serialization (class-transformer `Expose` names declared in the source).

Conventions of the embedding:
- TypeScript `T | undefined` fields become `Option T`.
- The constructors become total Lean functions taking the options bundle and a
  `seed : Nat` standing for the state of the fresh-identifier generator, so that
  the call `this.generateId()` is modelled by `generateId seed`.
- JavaScript semantics that matter to the claims are modelled explicitly:
  `a ?? b` on `Option String` is `Option.getD`, `a || b` on a
  `string | undefined` is `jsStringOr` (the empty string is the only falsy
  string), `arr[0]` on an array is `List.head?` (out-of-range indexing yields
  `undefined`), and the truthiness test `if (this.appendedAttachments)` takes
  the present branch exactly when the field is not `undefined` (an empty array
  is truthy).
-/

namespace AriesMessages

/-- Modelled from the spec: the external attachment format
(`decorators/attachment/Attachment`, not part of the excerpt). The messages
only store and retrieve attachments opaquely, so a record with an identifier
and an opaque payload suffices. -/
structure Attachment where
  attachId : String
  payload : String
deriving DecidableEq, Repr

/-- Modelled from the spec: the structured credential-attribute preview
(`V1CredentialPreview`, not part of the excerpt). Stored opaquely by the
message, so a list of attribute name/value pairs suffices. -/
structure V1CredentialPreview where
  attributes : List (String × String)
deriving DecidableEq, Repr

/-- Modelled from the spec: `AgentMessage.generateId` (the shared message base
class is not part of the excerpt) generates a fresh message identifier.  The
spec requires a generated identifier to be non-empty; we model the generator
as a function of a seed producing a UUID-URN-like string. -/
def generateId (seed : Nat) : String :=
  "urn:uuid:" ++ Nat.repr seed

/-- Modelled from the spec: the result of `parseMessageType` (from
`utils/messageType`, not part of the excerpt).  Only the `messageTypeUri`
projection is used by the excerpt. -/
structure ParsedMessageType where
  messageTypeUri : String
deriving DecidableEq, Repr

/-- Modelled from the spec: `parseMessageType` parses a message-type URI; its
`messageTypeUri` field is exactly the input string (the spec states the
per-class type matches the documented protocol URI string exactly). -/
def parseMessageType (uri : String) : ParsedMessageType :=
  ⟨uri⟩

/-- JavaScript `a || b` where `a : string | undefined`: the empty string is the
only falsy string, so it is replaced by `b`, as is `undefined`. -/
def jsStringOr (a : Option String) (b : String) : String :=
  match a with
  | some s => if s = "" then b else s
  | none => b

/-- `ProposeCredentialMessageOptions` from the source: every field the caller
may supply is optional at the TypeScript level except that the bundle itself
is required. -/
structure ProposeCredentialMessageOptions where
  id : Option String := none
  comment : Option String := none
  credentialProposal : Option V1CredentialPreview := none
  schemaIssuerDid : Option String := none
  schemaId : Option String := none
  schemaName : Option String := none
  schemaVersion : Option String := none
  credentialDefinitionId : Option String := none
  issuerDid : Option String := none
  attachments : Option (List Attachment) := none
deriving DecidableEq, Repr

/-- The `V1ProposeCredentialMessage` instance state after construction: the
inherited `id` and `type` fields plus the declared fields of the class. -/
structure V1ProposeCredentialMessage where
  id : String
  type : String
  comment : Option String
  credentialProposal : Option V1CredentialPreview
  schemaIssuerDid : Option String
  schemaId : Option String
  schemaName : Option String
  schemaVersion : Option String
  credentialDefinitionId : Option String
  issuerDid : Option String
  appendedAttachments : Option (List Attachment)
deriving DecidableEq, Repr

/-- The static `V1ProposeCredentialMessage.type` constant of the source
(named `staticType` here because the instance field is already called
`type`). -/
def V1ProposeCredentialMessage.staticType : ParsedMessageType :=
  parseMessageType "https://didcomm.org/issue-credential/1.0/propose-credential"

/-- The `V1ProposeCredentialMessage` constructor.  The source assigns
`this.id = options.id ?? this.generateId()` (nullish coalescing) and copies
every other options field unchanged; the instance `type` initializer assigns
the static type constant's `messageTypeUri`. -/
def V1ProposeCredentialMessage.construct
    (options : ProposeCredentialMessageOptions) (seed : Nat) :
    V1ProposeCredentialMessage :=
  { id := options.id.getD (generateId seed)
    type := V1ProposeCredentialMessage.staticType.messageTypeUri
    comment := options.comment
    credentialProposal := options.credentialProposal
    schemaIssuerDid := options.schemaIssuerDid
    schemaId := options.schemaId
    schemaName := options.schemaName
    schemaVersion := options.schemaVersion
    credentialDefinitionId := options.credentialDefinitionId
    issuerDid := options.issuerDid
    appendedAttachments := options.attachments }

/-- `getAttachment` from the source:
`if (this.appendedAttachments) return this.appendedAttachments[0] else return undefined`.
An array (empty or not) is truthy, so the present branch is taken whenever the
field is not `undefined`; JavaScript indexing `[0]` yields the first element or
`undefined`, i.e. `List.head?`. -/
def V1ProposeCredentialMessage.getAttachment
    (m : V1ProposeCredentialMessage) : Option Attachment :=
  match m.appendedAttachments with
  | some atts => atts.head?
  | none => none

/-- `BatchPickupMessageOptions` from the source.  `batchSize` is declared
required (`batchSize: number`) at the TypeScript level, but a JavaScript caller
can omit it, which the constructor does not detect; the embedding therefore
makes it an `Option`.  JavaScript numbers need not be integers, so the value is
a rational. -/
structure BatchPickupMessageOptions where
  id : Option String := none
  batchSize : Option ℚ := none
deriving DecidableEq, Repr

/-- The `BatchPickupMessage` instance state after construction. -/
structure BatchPickupMessage where
  id : String
  type : String
  batchSize : Option ℚ
deriving DecidableEq, Repr

/-- The static `BatchPickupMessage.type` constant of the source. -/
def BatchPickupMessage.staticType : ParsedMessageType :=
  parseMessageType "https://didcomm.org/messagepickup/1.0/batch-pickup"

/-- The `BatchPickupMessage` constructor.  The source assigns
`this.id = options.id || this.generateId()` (logical-or, so any falsy
identifier, including the empty string, triggers generation) and copies
`batchSize` unchanged without any presence or type check. -/
def BatchPickupMessage.construct
    (options : BatchPickupMessageOptions) (seed : Nat) : BatchPickupMessage :=
  { id := jsStringOr options.id (generateId seed)
    type := BatchPickupMessage.staticType.messageTypeUri
    batchSize := options.batchSize }

/-- One all-digit, non-empty component of a version string. -/
def digitsRun (cs : List Char) : Bool :=
  !cs.isEmpty && cs.all Char.isDigit

/-- Split a character list at every dot (the semantics of splitting a string on
the single-character separator "."). -/
def splitDot : List Char → List (List Char)
  | [] => [[]]
  | c :: rest =>
    match splitDot rest with
    | h :: t => if c = '.' then [] :: h :: t else (c :: h) :: t
    | [] => if c = '.' then [[], []] else [[c]]

/-- Modelled from the spec: `schemaVersionRegex` (from `utils`, not part of the
excerpt) accepts exactly the version strings of shape `X.X` or `X.X.X` where
each `X` is a run of digits. -/
def schemaVersionRegexMatch (s : String) : Bool :=
  match splitDot s.data with
  | [x, y] => digitsRun x && digitsRun y
  | [x, y, z] => digitsRun x && digitsRun y && digitsRun z
  | _ => false

/-- The documented validation-failure message of the `Matches` decorator on
`schemaVersion`. -/
def schemaVersionMessage : String :=
  "Version must be X.X or X.X.X"

/-- Modelled from the spec: one field of the external validation pass.  A field
marked `IsOptional` is skipped when absent; when present it must satisfy its
`Matches` regex or a field-level error `(field name, message)` is reported. -/
def fieldErr (field : String) (value : Option String)
    (ok : String → Bool) (msg : String) : List (String × String) :=
  match value with
  | none => []
  | some s => if ok s then [] else [(field, msg)]

/-- Modelled from the spec: the external validation pass over a
`V1ProposeCredentialMessage`, parameterized by the identifier regexes
(`indyDidRegex`, `schemaIdRegex`, `credDefIdRegex` are from `utils`, not part
of the excerpt, and the spec does not give their patterns, so they are
arbitrary predicates).  Each annotated field contributes its field-level
errors; `schemaVersion` carries the dedicated message of the source. -/
def validatePropose (indyDidMatch schemaIdMatch credDefIdMatch : String → Bool)
    (m : V1ProposeCredentialMessage) : List (String × String) :=
  fieldErr "schemaIssuerDid" m.schemaIssuerDid indyDidMatch
      "schemaIssuerDid must match indyDidRegex regular expression"
    ++ fieldErr "schemaId" m.schemaId schemaIdMatch
      "schemaId must match schemaIdRegex regular expression"
    ++ fieldErr "schemaVersion" m.schemaVersion schemaVersionRegexMatch
      schemaVersionMessage
    ++ fieldErr "credentialDefinitionId" m.credentialDefinitionId credDefIdMatch
      "credentialDefinitionId must match credDefIdRegex regular expression"
    ++ fieldErr "issuerDid" m.issuerDid indyDidMatch
      "issuerDid must match indyDidRegex regular expression"

/-- Modelled from the spec: the external validation pass over a
`BatchPickupMessage`.  `batchSize` is annotated `IsInt` without `IsOptional`,
so a missing or non-integer value is reported as a field-level error. -/
def validateBatchPickup (m : BatchPickupMessage) : List (String × String) :=
  match m.batchSize with
  | none => [("batchSize", "batchSize must be an integer number")]
  | some q =>
    if q.den = 1 then [] else [("batchSize", "batchSize must be an integer number")]

/-- A value of the serialized wire object. -/
inductive WireValue where
  | str : String → WireValue
  | preview : V1CredentialPreview → WireValue
  | num : ℚ → WireValue
deriving DecidableEq, Repr

/-- Modelled from the spec: the serialized wire object of a
`V1ProposeCredentialMessage`, as a map from wire key to value.  The wire names
are the `Expose` names declared in the source (`comment` has no `Expose`
decorator and keeps its property name); the base-class `id` and `type` fields
serialize under `@id` and `@type`.  An absent optional field yields no wire
key (`none`).  The appended-attachments decorator's wire mapping lives in the
external base class and is not modelled. -/
def V1ProposeCredentialMessage.wireField
    (m : V1ProposeCredentialMessage) (key : String) : Option WireValue :=
  if key = "@type" then some (WireValue.str m.type)
  else if key = "@id" then some (WireValue.str m.id)
  else if key = "comment" then m.comment.map WireValue.str
  else if key = "credential_proposal" then m.credentialProposal.map WireValue.preview
  else if key = "schema_issuer_did" then m.schemaIssuerDid.map WireValue.str
  else if key = "schema_id" then m.schemaId.map WireValue.str
  else if key = "schema_name" then m.schemaName.map WireValue.str
  else if key = "schema_version" then m.schemaVersion.map WireValue.str
  else if key = "cred_def_id" then m.credentialDefinitionId.map WireValue.str
  else if key = "issuer_did" then m.issuerDid.map WireValue.str
  else none

/-- Modelled from the spec: the serialized wire object of a
`BatchPickupMessage`. -/
def BatchPickupMessage.wireField
    (m : BatchPickupMessage) (key : String) : Option WireValue :=
  if key = "@type" then some (WireValue.str m.type)
  else if key = "@id" then some (WireValue.str m.id)
  else if key = "batch_size" then m.batchSize.map WireValue.num
  else none

/-! Concrete sample inputs used by the witness and counterexample theorems. -/

/-- A concrete attachment. -/
def sampleAttachment : Attachment :=
  { attachId := "att-1", payload := "payload-1" }

/-- An options bundle supplying nothing (every field absent). -/
def optsAllNone : ProposeCredentialMessageOptions := {}

/-- An options bundle supplying only the empty string as identifier. -/
def optsEmptyId : ProposeCredentialMessageOptions :=
  { id := some "" }

/-- An options bundle supplying one attachment. -/
def optsWithAttachment : ProposeCredentialMessageOptions :=
  { attachments := some [sampleAttachment] }

/-- An options bundle supplying a present but empty attachment array. -/
def optsEmptyAttachments : ProposeCredentialMessageOptions :=
  { attachments := some [] }

/-- An options bundle with a malformed schema version. -/
def optsBadVersion : ProposeCredentialMessageOptions :=
  { schemaVersion := some "abc" }

/-- An options bundle with a well-formed schema version. -/
def optsGoodVersion : ProposeCredentialMessageOptions :=
  { schemaVersion := some "1.0" }

/-- An options bundle whose identifier fields violate the format regexes
(under a regex that rejects everything, any present value violates). -/
def optsBadFields : ProposeCredentialMessageOptions :=
  { schemaIssuerDid := some "not-a-did", schemaVersion := some "abc" }

/-- A batch-pickup options bundle supplying the empty string as identifier. -/
def batchOptsEmptyId : BatchPickupMessageOptions :=
  { id := some "", batchSize := some 2 }

/-- A batch-pickup options bundle supplying a non-empty identifier. -/
def batchOptsNamed : BatchPickupMessageOptions :=
  { id := some "b1", batchSize := some 3 }

/-- A batch-pickup options bundle whose caller omitted the required
`batchSize`. -/
def batchOptsMissingSize : BatchPickupMessageOptions :=
  { id := none, batchSize := none }

/-- A batch-pickup options bundle supplying the non-integer batch size 3/2. -/
def batchOptsHalf : BatchPickupMessageOptions :=
  { id := none, batchSize := some (mkRat 3 2) }

/-- A stand-in identifier regex that accepts every string. -/
def acceptAll : String → Bool := fun _ => true

/-- A stand-in identifier regex that rejects every string. -/
def rejectAll : String → Bool := fun _ => false

/-- Membership in the error list contributed by one validated field. -/
lemma mem_fieldErr (p : String × String) (field : String) (v : Option String)
    (ok : String → Bool) (msg : String) :
    p ∈ fieldErr field v ok msg ↔
      p.1 = field ∧ p.2 = msg ∧ ∃ s, v = some s ∧ ok s = false := by
  cases v with
  | none => simp [fieldErr]
  | some s =>
    cases hok : ok s <;>
      simp [fieldErr, hok, Prod.ext_iff]

/-- The generated identifier is never the empty string. -/
lemma generateId_ne_empty (seed : Nat) : generateId seed ≠ "" := by
  intro h
  have h2 := congrArg String.length h
  simp [generateId, String.length_append] at h2
  exact absurd h2.1 (by decide)

/-- C1: for every `V1ProposeCredentialMessage`, `getAttachment` returns the
first element of its appended attachments when one or more attachments are
present, and returns no value when none are present. -/
theorem getAttachment_returns_first_or_none (m : V1ProposeCredentialMessage) :
    (∀ a l, m.appendedAttachments = some (a :: l) → m.getAttachment = some a) ∧
    ((m.appendedAttachments = none ∨ m.appendedAttachments = some []) →
      m.getAttachment = none) := by
  constructor
  · intro a l h
    simp [V1ProposeCredentialMessage.getAttachment, h]
  · intro h
    rcases h with h | h <;> simp [V1ProposeCredentialMessage.getAttachment, h]

/-- C1 witness: evaluated on a message carrying one attachment and on a
message carrying none. -/
theorem getAttachment_returns_first_or_none_witness :
    (V1ProposeCredentialMessage.construct optsWithAttachment 0).getAttachment
        = some sampleAttachment ∧
    (V1ProposeCredentialMessage.construct optsAllNone 0).getAttachment = none :=
  ⟨(getAttachment_returns_first_or_none
      (V1ProposeCredentialMessage.construct optsWithAttachment 0)).1
        sampleAttachment [] rfl,
   (getAttachment_returns_first_or_none
      (V1ProposeCredentialMessage.construct optsAllNone 0)).2 (Or.inl rfl)⟩

/-- C2 counterexample: the claim fails as stated.  Constructing a
`V1ProposeCredentialMessage` with the supplied id `""` yields an empty id
(refuting non-emptiness), and constructing a `BatchPickupMessage` with the
supplied id `""` yields an id different from the supplied one (refuting that
the id equals the caller-supplied id whenever one was supplied). -/
theorem message_id_claim_counterexample :
    (V1ProposeCredentialMessage.construct optsEmptyId 0).id = "" ∧
    (BatchPickupMessage.construct batchOptsEmptyId 7).id ≠ "" := by
  decide

/-- C2 amended: after construction the id field is present; for
`V1ProposeCredentialMessage` it equals the caller-supplied id whenever one was
supplied (even the empty string) and is freshly generated otherwise; for
`BatchPickupMessage` it equals the caller-supplied id whenever a non-empty one
was supplied and is freshly generated otherwise (absent or empty); the
generated identifier is non-empty. -/
theorem message_id_post_construction
    (opts : ProposeCredentialMessageOptions) (bopts : BatchPickupMessageOptions)
    (seed : Nat) :
    ((opts.id = none →
        (V1ProposeCredentialMessage.construct opts seed).id = generateId seed) ∧
     (∀ s, opts.id = some s →
        (V1ProposeCredentialMessage.construct opts seed).id = s)) ∧
    (((bopts.id = none ∨ bopts.id = some "") →
        (BatchPickupMessage.construct bopts seed).id = generateId seed) ∧
     (∀ s, bopts.id = some s → s ≠ "" →
        (BatchPickupMessage.construct bopts seed).id = s)) ∧
    generateId seed ≠ "" := by
  refine ⟨⟨fun h => ?_, fun s h => ?_⟩, ⟨fun h => ?_, fun s h hs => ?_⟩, ?_⟩
  · simp [V1ProposeCredentialMessage.construct, h]
  · simp [V1ProposeCredentialMessage.construct, h]
  · rcases h with h | h <;> simp [BatchPickupMessage.construct, jsStringOr, h]
  · simp [BatchPickupMessage.construct, jsStringOr, h, hs]
  · exact generateId_ne_empty seed

/-- C2 witness: the amended statement evaluated on concrete bundles with an
absent id, an empty supplied id, and a non-empty supplied id. -/
theorem message_id_post_construction_witness :
    (V1ProposeCredentialMessage.construct optsAllNone 3).id = generateId 3 ∧
    (V1ProposeCredentialMessage.construct optsEmptyId 3).id = "" ∧
    (BatchPickupMessage.construct batchOptsEmptyId 3).id = generateId 3 ∧
    (BatchPickupMessage.construct batchOptsNamed 3).id = "b1" ∧
    generateId 3 ≠ "" :=
  ⟨(message_id_post_construction optsAllNone batchOptsEmptyId 3).1.1 rfl,
   (message_id_post_construction optsEmptyId batchOptsEmptyId 3).1.2 "" rfl,
   (message_id_post_construction optsAllNone batchOptsEmptyId 3).2.1.1 (Or.inr rfl),
   (message_id_post_construction optsAllNone batchOptsNamed 3).2.1.2 "b1" rfl
     (by decide),
   (message_id_post_construction optsAllNone batchOptsEmptyId 3).2.2⟩

/-- C3: constructing either message preserves every supplied field unchanged
(the claim's field list: comment, credentialProposal, schemaIssuerDid,
schemaId, schemaName, schemaVersion, credentialDefinitionId, issuerDid,
appended attachments; and batchSize for `BatchPickupMessage`). -/
theorem construct_preserves_supplied_fields
    (opts : ProposeCredentialMessageOptions) (bopts : BatchPickupMessageOptions)
    (seed : Nat) :
    (V1ProposeCredentialMessage.construct opts seed).comment = opts.comment ∧
    (V1ProposeCredentialMessage.construct opts seed).credentialProposal
        = opts.credentialProposal ∧
    (V1ProposeCredentialMessage.construct opts seed).schemaIssuerDid
        = opts.schemaIssuerDid ∧
    (V1ProposeCredentialMessage.construct opts seed).schemaId = opts.schemaId ∧
    (V1ProposeCredentialMessage.construct opts seed).schemaName = opts.schemaName ∧
    (V1ProposeCredentialMessage.construct opts seed).schemaVersion
        = opts.schemaVersion ∧
    (V1ProposeCredentialMessage.construct opts seed).credentialDefinitionId
        = opts.credentialDefinitionId ∧
    (V1ProposeCredentialMessage.construct opts seed).issuerDid = opts.issuerDid ∧
    (V1ProposeCredentialMessage.construct opts seed).appendedAttachments
        = opts.attachments ∧
    (BatchPickupMessage.construct bopts seed).batchSize = bopts.batchSize :=
  ⟨rfl, rfl, rfl, rfl, rfl, rfl, rfl, rfl, rfl, rfl⟩

/-- C4: the message-type URI is a per-class constant: every constructed
`V1ProposeCredentialMessage` has exactly the documented propose-credential
URI and every constructed `BatchPickupMessage` has exactly the documented
batch-pickup URI, and each equals its class-level static type constant. -/
theorem message_type_uri_constant
    (opts : ProposeCredentialMessageOptions) (bopts : BatchPickupMessageOptions)
    (seed : Nat) :
    (V1ProposeCredentialMessage.construct opts seed).type
        = "https://didcomm.org/issue-credential/1.0/propose-credential" ∧
    (BatchPickupMessage.construct bopts seed).type
        = "https://didcomm.org/messagepickup/1.0/batch-pickup" ∧
    (V1ProposeCredentialMessage.construct opts seed).type
        = V1ProposeCredentialMessage.staticType.messageTypeUri ∧
    (BatchPickupMessage.construct bopts seed).type
        = BatchPickupMessage.staticType.messageTypeUri :=
  ⟨rfl, rfl, rfl, rfl⟩

/-- C5: the external validation pass reports a field-level failure for
`schemaVersion` carrying exactly the message "Version must be X.X or X.X.X"
when the supplied version string does not match `X.X` or `X.X.X`, and reports
no `schemaVersion` failure when it matches. -/
theorem schema_version_validation_exact
    (f g k : String → Bool) (m : V1ProposeCredentialMessage) (s : String)
    (hs : m.schemaVersion = some s) :
    (schemaVersionRegexMatch s = false →
      ("schemaVersion", schemaVersionMessage) ∈ validatePropose f g k m) ∧
    (schemaVersionRegexMatch s = true →
      ∀ msg, ("schemaVersion", msg) ∉ validatePropose f g k m) := by
  constructor
  · intro hbad
    simp [validatePropose, mem_fieldErr, hs, hbad, schemaVersionMessage]
  · intro hgood msg hmem
    simp [validatePropose, mem_fieldErr, hs, hgood] at hmem

/-- C5 witness: the malformed version "abc" is reported with the documented
message and the well-formed version "1.0" is not reported, under arbitrary
concrete identifier regexes. -/
theorem schema_version_validation_exact_witness :
    ("schemaVersion", schemaVersionMessage)
        ∈ validatePropose acceptAll acceptAll acceptAll
            (V1ProposeCredentialMessage.construct optsBadVersion 0) ∧
    (∀ msg, ("schemaVersion", msg)
        ∉ validatePropose acceptAll acceptAll acceptAll
            (V1ProposeCredentialMessage.construct optsGoodVersion 0)) :=
  ⟨(schema_version_validation_exact acceptAll acceptAll acceptAll
      (V1ProposeCredentialMessage.construct optsBadVersion 0) "abc" rfl).1 rfl,
   fun msg =>
    (schema_version_validation_exact acceptAll acceptAll acceptAll
      (V1ProposeCredentialMessage.construct optsGoodVersion 0) "1.0" rfl).2
        rfl msg⟩

/-- C6: construction performs no format validation: even for an options bundle
on which the external validation pass reports failures, the constructor
succeeds and stores every violating value unchanged. -/
theorem construct_stores_invalid_values
    (f g k : String → Bool) (opts : ProposeCredentialMessageOptions) (seed : Nat)
    (_hbad : validatePropose f g k (V1ProposeCredentialMessage.construct opts seed)
        ≠ []) :
    (V1ProposeCredentialMessage.construct opts seed).schemaIssuerDid
        = opts.schemaIssuerDid ∧
    (V1ProposeCredentialMessage.construct opts seed).schemaId = opts.schemaId ∧
    (V1ProposeCredentialMessage.construct opts seed).schemaVersion
        = opts.schemaVersion ∧
    (V1ProposeCredentialMessage.construct opts seed).credentialDefinitionId
        = opts.credentialDefinitionId ∧
    (V1ProposeCredentialMessage.construct opts seed).issuerDid = opts.issuerDid ∧
    (V1ProposeCredentialMessage.construct opts seed).comment = opts.comment ∧
    (V1ProposeCredentialMessage.construct opts seed).credentialProposal
        = opts.credentialProposal ∧
    (V1ProposeCredentialMessage.construct opts seed).schemaName = opts.schemaName ∧
    (V1ProposeCredentialMessage.construct opts seed).appendedAttachments
        = opts.attachments :=
  ⟨rfl, rfl, rfl, rfl, rfl, rfl, rfl, rfl, rfl⟩

/-- C6 witness: a bundle whose schema issuer DID and schema version both fail
validation (under a regex rejecting every string) still constructs with the
violating values stored unchanged. -/
theorem construct_stores_invalid_values_witness :
    validatePropose rejectAll rejectAll rejectAll
        (V1ProposeCredentialMessage.construct optsBadFields 0) ≠ [] ∧
    (V1ProposeCredentialMessage.construct optsBadFields 0).schemaIssuerDid
        = some "not-a-did" :=
  ⟨by decide,
   (construct_stores_invalid_values rejectAll rejectAll rejectAll
      optsBadFields 0 (by decide)).1⟩

/-- C7: each internal field serializes under its documented snake_case wire
name (`credential_proposal`, `schema_issuer_did`, `schema_id`, `schema_name`,
`schema_version`, `cred_def_id`, `issuer_did`, `batch_size`), and omitting an
optional field from the options bundle yields no corresponding wire key. -/
theorem wire_name_mapping
    (opts : ProposeCredentialMessageOptions) (bopts : BatchPickupMessageOptions)
    (seed : Nat) :
    (V1ProposeCredentialMessage.construct opts seed).wireField "credential_proposal"
        = opts.credentialProposal.map WireValue.preview ∧
    (V1ProposeCredentialMessage.construct opts seed).wireField "schema_issuer_did"
        = opts.schemaIssuerDid.map WireValue.str ∧
    (V1ProposeCredentialMessage.construct opts seed).wireField "schema_id"
        = opts.schemaId.map WireValue.str ∧
    (V1ProposeCredentialMessage.construct opts seed).wireField "schema_name"
        = opts.schemaName.map WireValue.str ∧
    (V1ProposeCredentialMessage.construct opts seed).wireField "schema_version"
        = opts.schemaVersion.map WireValue.str ∧
    (V1ProposeCredentialMessage.construct opts seed).wireField "cred_def_id"
        = opts.credentialDefinitionId.map WireValue.str ∧
    (V1ProposeCredentialMessage.construct opts seed).wireField "issuer_did"
        = opts.issuerDid.map WireValue.str ∧
    (BatchPickupMessage.construct bopts seed).wireField "batch_size"
        = bopts.batchSize.map WireValue.num ∧
    (opts.schemaVersion = none →
      (V1ProposeCredentialMessage.construct opts seed).wireField "schema_version"
        = none) ∧
    (bopts.batchSize = none →
      (BatchPickupMessage.construct bopts seed).wireField "batch_size" = none) := by
  refine ⟨rfl, rfl, rfl, rfl, rfl, rfl, rfl, rfl, fun h => ?_, fun h => ?_⟩
  · have e : (V1ProposeCredentialMessage.construct opts seed).wireField
        "schema_version" = opts.schemaVersion.map WireValue.str := rfl
    rw [e, h]
    rfl
  · have e : (BatchPickupMessage.construct bopts seed).wireField "batch_size"
        = bopts.batchSize.map WireValue.num := rfl
    rw [e, h]
    rfl

/-- C7 witness: bundles omitting the optional schema version and the batch
size yield no corresponding wire key. -/
theorem wire_name_mapping_witness :
    (V1ProposeCredentialMessage.construct optsAllNone 0).wireField "schema_version"
        = none ∧
    (BatchPickupMessage.construct batchOptsMissingSize 0).wireField "batch_size"
        = none :=
  ⟨(wire_name_mapping optsAllNone batchOptsMissingSize 0).2.2.2.2.2.2.2.2.1 rfl,
   (wire_name_mapping optsAllNone batchOptsMissingSize 0).2.2.2.2.2.2.2.2.2 rfl⟩

/-- C8: the `BatchPickupMessage` constructor assigns `batchSize` directly from
the bundle without presence or type checks: an absent batch size is simply
left absent on the instance, and a non-integer batch size is reported only by
the external validation pass as a field-level error. -/
theorem batch_size_unchecked_at_construction
    (bopts : BatchPickupMessageOptions) (seed : Nat) :
    (BatchPickupMessage.construct bopts seed).batchSize = bopts.batchSize ∧
    (bopts.batchSize = none →
      (BatchPickupMessage.construct bopts seed).batchSize = none) ∧
    (∀ q, bopts.batchSize = some q → q.den ≠ 1 →
      ("batchSize", "batchSize must be an integer number")
        ∈ validateBatchPickup (BatchPickupMessage.construct bopts seed)) ∧
    (∀ q, bopts.batchSize = some q → q.den = 1 →
      validateBatchPickup (BatchPickupMessage.construct bopts seed) = []) := by
  refine ⟨rfl, fun h => ?_, fun q hq hden => ?_, fun q hq hden => ?_⟩
  · simp [BatchPickupMessage.construct, h]
  · simp [validateBatchPickup, BatchPickupMessage.construct, hq, hden]
  · simp [validateBatchPickup, BatchPickupMessage.construct, hq, hden]

/-- C8 witness: an omitted batch size stays absent after construction, and the
non-integer batch size 3/2 is reported by the validation pass. -/
theorem batch_size_unchecked_at_construction_witness :
    (BatchPickupMessage.construct batchOptsMissingSize 0).batchSize = none ∧
    ("batchSize", "batchSize must be an integer number")
        ∈ validateBatchPickup (BatchPickupMessage.construct batchOptsHalf 0) ∧
    validateBatchPickup (BatchPickupMessage.construct batchOptsNamed 0) = [] :=
  ⟨(batch_size_unchecked_at_construction batchOptsMissingSize 0).2.1 rfl,
   (batch_size_unchecked_at_construction batchOptsHalf 0).2.2.1 (mkRat 3 2) rfl
     (by decide),
   (batch_size_unchecked_at_construction batchOptsNamed 0).2.2.2 3 rfl rfl⟩

/-- C9: `getAttachment` is total: on a present but empty attachment array the
present branch is taken, indexing position 0 yields no value, and the result
coincides with the result on a message whose attachment field is absent. -/
theorem getAttachment_empty_array_total (m : V1ProposeCredentialMessage)
    (h : m.appendedAttachments = some []) :
    m.getAttachment = none ∧
    m.getAttachment
      = V1ProposeCredentialMessage.getAttachment
          { m with appendedAttachments := none } := by
  constructor <;> simp [V1ProposeCredentialMessage.getAttachment, h]

/-- C9 witness: evaluated on a constructed message carrying a present but
empty attachment array. -/
theorem getAttachment_empty_array_total_witness :
    (V1ProposeCredentialMessage.construct optsEmptyAttachments 0).appendedAttachments
        = some [] ∧
    (V1ProposeCredentialMessage.construct optsEmptyAttachments 0).getAttachment
        = none :=
  ⟨rfl,
   (getAttachment_empty_array_total
      (V1ProposeCredentialMessage.construct optsEmptyAttachments 0) rfl).1⟩

/-- C10: the two classes treat a caller-supplied empty-string id differently:
`V1ProposeCredentialMessage` keeps the empty string (nullish coalescing),
whereas `BatchPickupMessage` discards it and assigns the freshly generated
identifier (logical-or on a falsy string). -/
theorem empty_string_id_divergence
    (opts : ProposeCredentialMessageOptions) (bopts : BatchPickupMessageOptions)
    (seed : Nat) (h1 : opts.id = some "") (h2 : bopts.id = some "") :
    (V1ProposeCredentialMessage.construct opts seed).id = "" ∧
    (BatchPickupMessage.construct bopts seed).id = generateId seed := by
  constructor
  · simp [V1ProposeCredentialMessage.construct, h1]
  · simp [BatchPickupMessage.construct, jsStringOr, h2]

/-- C10 witness: evaluated on concrete bundles supplying the empty-string
id to both classes. -/
theorem empty_string_id_divergence_witness :
    optsEmptyId.id = some "" ∧
    batchOptsEmptyId.id = some "" ∧
    (V1ProposeCredentialMessage.construct optsEmptyId 5).id = "" ∧
    (BatchPickupMessage.construct batchOptsEmptyId 5).id = generateId 5 :=
  ⟨rfl, rfl,
   (empty_string_id_divergence optsEmptyId batchOptsEmptyId 5 rfl rfl).1,
   (empty_string_id_divergence optsEmptyId batchOptsEmptyId 5 rfl rfl).2⟩

end AriesMessages
